import Mathlib

/-!
Shallow embedding of `main.go` from `bassosimone/ndt7-client-go-minimal`,
a minimal ndt7 speed-test client, together with theorems settling the
specification claims about its three test loops (download, upload,
round-trip), its report emitter, and its server-discovery step.

Conventions used throughout:
* Go `int`/`int64` byte counters are modelled as `Nat` (they are always
  non-negative in the program and never near overflow within a 10 s test).
* Go `time.Duration` values are raw nanosecond counts; a duration that is
  known non-negative (elapsed time since the test start) is a `Nat`,
  while the server-provided sender time `ST` is kept as `Int`.
* The nondeterministic 250 ms ticker (`select` with `default`) is
  modelled as a boolean oracle attached to each loop iteration: `true`
  means a tick was pending in the ticker channel at that point.
* Byte strings are modelled as `String` with one char per byte.
-/

namespace Ndt7

/-! ## Constants (from the `const` block of main.go) -/

def minMessageSize : Nat := 1 <<< 10
def maxScaledMessageSize : Nat := 1 <<< 20
def maxMessageSize : Nat := 1 <<< 24
def fractionForScaling : Nat := 16
def roundTripMaxMessageSize : Nat := 1 <<< 17

/-! ## Upload test: adaptive message sizing (uploadTest, main.go:149-182)

The loop body writes the prepared message, adds its size to `total`, and
then evaluates the growth policy:

  if int64(size) >= maxScaledMessageSize || int64(size) >= (total/fractionForScaling) {
      continue
  }
  size <<= 1

`nextSize s t` is the prepared size used for the next write when the
state just after a write is size `s`, running total `t`. -/

def nextSize (s t : Nat) : Nat :=
  if maxScaledMessageSize ≤ s ∨ t / fractionForScaling ≤ s then s else 2 * s

/-- One write iteration of the upload loop acting on the pair
(prepared message size, total bytes sent): write the message (adding
its size to the total), then apply the growth policy. -/
def uploadWrite (st : Nat × Nat) : Nat × Nat :=
  (nextSize st.1 (st.2 + st.1), st.2 + st.1)

/-- State of the upload loop after `n` writes, starting from the
initial prepared size `minMessageSize` and total 0 (main.go:150,155):
first component is the prepared size for the next write, second is the
total number of bytes sent so far. -/
def uploadState : Nat → Nat × Nat
  | 0 => (minMessageSize, 0)
  | n + 1 => uploadWrite (uploadState n)

example : uploadState 1 = (1024, 1024) := by decide
example : uploadState 16 = (1024, 16384) := by decide
example : uploadState 17 = (2048, 17408) := by decide

lemma nextSize_le (s t : Nat) : s ≤ nextSize s t := by
  unfold nextSize
  split
  · exact le_refl s
  · omega

lemma minMessageSize_eq : minMessageSize = 1024 := by decide

lemma maxScaledMessageSize_eq : maxScaledMessageSize = 1048576 := by decide

/-- The prepared size is always `minMessageSize` times a power of two and
never exceeds `maxScaledMessageSize` (hence in particular never the
16 MiB hard cap). -/
lemma uploadState_size_inv (n : Nat) :
    (∃ k, (uploadState n).1 = minMessageSize * 2 ^ k) ∧
      (uploadState n).1 ≤ maxScaledMessageSize := by
  induction n with
  | zero => exact ⟨⟨0, by decide⟩, by decide⟩
  | succ n ih =>
    obtain ⟨⟨k, hk⟩, hle⟩ := ih
    have hstep : (uploadState (n + 1)).1 =
        nextSize (uploadState n).1 ((uploadState n).2 + (uploadState n).1) := rfl
    rw [hstep]
    unfold nextSize
    split
    · exact ⟨⟨k, hk⟩, hle⟩
    · rename_i h
      push_neg at h
      obtain ⟨hlt, -⟩ := h
      rw [minMessageSize_eq] at hk
      rw [maxScaledMessageSize_eq] at hlt
      have h2k : 2 ^ k < 2 ^ 10 := by
        have : 1024 * 2 ^ k < 1024 * 2 ^ 10 := by rw [← hk]; simpa using hlt
        exact Nat.lt_of_mul_lt_mul_left this
      have hk10 : k < 10 := (Nat.pow_lt_pow_iff_right (by norm_num)).mp h2k
      have hk1 : 2 ^ (k + 1) ≤ 2 ^ 10 := Nat.pow_le_pow_right (by norm_num) hk10
      constructor
      · exact ⟨k + 1, by rw [minMessageSize_eq, hk]; ring⟩
      · rw [maxScaledMessageSize_eq, hk]
        calc 2 * (1024 * 2 ^ k) = 1024 * 2 ^ (k + 1) := by ring
          _ ≤ 1024 * 2 ^ 10 := Nat.mul_le_mul_left _ hk1
          _ = 1048576 := by norm_num

/-- C5: throughout any upload run the prepared message size is
monotonically non-decreasing from one write to the next, is always
`minMessageSize` (1024) times a power of two, and never exceeds the
16 MiB hard cap `maxMessageSize`. -/
theorem upload_size_invariants (n : Nat) :
    (uploadState n).1 ≤ (uploadState (n + 1)).1 ∧
      (∃ k, (uploadState n).1 = minMessageSize * 2 ^ k) ∧
      (uploadState n).1 ≤ maxMessageSize := by
  obtain ⟨hpow, hle⟩ := uploadState_size_inv n
  refine ⟨?_, hpow, ?_⟩
  · exact nextSize_le _ _
  · exact le_trans hle (by decide)

/-- C1 counterexample: the loop state just after the 16th write has
prepared size 1024 and total 16384, so `total/16 = 1024 ≥ 1024` holds,
yet the next write still uses size 1024 (the growth policy keeps the
size when `size ≥ total/16`, including at equality), not 2048. -/
theorem upload_growth_boundary_cex :
    uploadState 16 = (1024, 16384) ∧
      1024 ≤ 16384 / fractionForScaling ∧
      nextSize 1024 16384 = 1024 ∧ (1024 : Nat) ≠ 2048 := by decide

/-- C1 (amended): the growth policy evaluated after every write keeps
the current size `s` when `s ≥ maxScaledMessageSize` or
`s ≥ total/fractionForScaling`, and doubles it otherwise; in
particular, starting from size 1024, once `total/16` strictly exceeds
1024 the next prepared size is 2048, and once it strictly exceeds 2048
the next prepared size is 4096. -/
theorem upload_growth_policy :
    (∀ s t : Nat,
      ((maxScaledMessageSize ≤ s ∨ t / fractionForScaling ≤ s) → nextSize s t = s) ∧
      (s < maxScaledMessageSize → s < t / fractionForScaling → nextSize s t = 2 * s)) ∧
    (∀ t : Nat, minMessageSize < t / fractionForScaling →
      nextSize minMessageSize t = 2048) ∧
    (∀ t : Nat, 2048 < t / fractionForScaling → nextSize 2048 t = 4096) := by
  have base : ∀ s t : Nat,
      ((maxScaledMessageSize ≤ s ∨ t / fractionForScaling ≤ s) → nextSize s t = s) ∧
      (s < maxScaledMessageSize → s < t / fractionForScaling → nextSize s t = 2 * s) := by
    intro s t
    constructor
    · intro h
      rw [nextSize, if_pos h]
    · intro h1 h2
      rw [nextSize, if_neg (by push_neg; exact ⟨h1, h2⟩)]
  refine ⟨base, ?_, ?_⟩
  · intro t ht
    have := (base minMessageSize t).2 (by decide) ht
    rw [this, minMessageSize_eq]
  · intro t ht
    have := (base 2048 t).2 (by decide) ht
    rw [this]

/-- Witness for `upload_growth_policy`: at total 17408 (after the 17th
write of a real run) `total/16 = 1088 > 1024` and the next size is
2048; at total 49152 `total/16 = 3072 > 2048` and the next size from
2048 is 4096. -/
theorem upload_growth_policy_witness :
    nextSize minMessageSize 17408 = 2048 ∧ nextSize 2048 49152 = 4096 :=
  ⟨upload_growth_policy.2.1 17408 (by decide),
   upload_growth_policy.2.2 49152 (by decide)⟩

/-! ## Round-trip test (roundTripTest, main.go:75-99)

The loop receives a request, prints it via `roundTripRequest.String`
(main.go:37-41, 89), and replies (main.go:90-94) with

  reply := roundTripReply{
      STE: info.msg.ST,
      STD: info.recvTime.Sub(start)/time.Microsecond - info.msg.ST,
      RT:  time.Since(start) / time.Microsecond,
  }

`recvElapsedNs` / `sendElapsedNs` are the nanosecond durations
`info.recvTime.Sub(start)` and `time.Since(start)`; dividing by
`time.Microsecond` (= 1000 ns) converts them to microseconds. The
sender time `ST` arrives from the server already in microsecond units
(per the field comments in main.go:32-34). -/

structure RoundTripReply where
  STE : Int
  STD : Int
  RT : Int
deriving DecidableEq

def mkRoundTripReply (st : Int) (recvElapsedNs sendElapsedNs : Nat) : RoundTripReply :=
  { STE := st
    STD := ((recvElapsedNs / 1000 : Nat) : Int) - st
    RT := ((sendElapsedNs / 1000 : Nat) : Int) }

/-- C2: for every round-trip iteration, the reply echoes the request's
sender time in `STE` and reports `STD` = elapsed microseconds at
receive minus the sender time; in particular a request with `ST = 100`
received at elapsed 150 μs yields `STE = 100` and `STD = 50`. -/
theorem roundtrip_reply_fields (st : Int) (recvElapsedNs sendElapsedNs : Nat) :
    (mkRoundTripReply st recvElapsedNs sendElapsedNs).STE = st ∧
      (mkRoundTripReply st recvElapsedNs sendElapsedNs).STD =
        ((recvElapsedNs / 1000 : Nat) : Int) - st ∧
      mkRoundTripReply 100 150000 160000 = ⟨100, 50, 160⟩ :=
  ⟨rfl, rfl, by decide⟩

/-! ## Report emitter: the exact byte strings written to stdout

Each Go `fmt.Printf` call in main.go is modelled as a Lean function
returning the full string written. `\x7b` and `\x7d` are the literal
`{` and `}` characters of the JSON output. Numeric `%d` arguments are
rendered with `toString : Nat -> String`, matching Go's decimal
rendering of non-negative integers; the float `%f` arguments (SRTT,
RTTVar) are abstracted as pre-rendered strings. -/

/-- Body of `emitAppInfo` (main.go:102-105): the JSON object; the Go
format string appends a newline pair after it. `elapsedUs` is
`time.Since(start)/time.Microsecond`. -/
def emitAppInfoBody (total elapsedUs : Nat) (testname : String) : String :=
  "\x7b\"AppInfo\":\x7b\"NumBytes\":" ++ toString total ++
    ",\"ElapsedTime\":" ++ toString elapsedUs ++
    "\x7d,\"Test\":\"" ++ testname ++ "\"\x7d"

/-- Full output of `emitAppInfo`: body followed by a newline pair. -/
def emitAppInfoOut (total elapsedUs : Nat) (testname : String) : String :=
  emitAppInfoBody total elapsedUs testname ++ "\n\n"

/-- Body of `warnx` (main.go:206-208). -/
def warnxBody (errmsg testname : String) : String :=
  "\x7b\"Failure\":\"" ++ errmsg ++ "\",\"Test\":\"" ++ testname ++ "\"\x7d"

/-- Full output of `warnx`: body followed by a newline pair. -/
def warnxOut (errmsg testname : String) : String :=
  warnxBody errmsg testname ++ "\n\n"

/-- Body of `roundTripRequest.String` (main.go:37-41). CRUCIALLY, the
`%d` argument is the raw `time.Duration` `elapsed`, i.e. a NANOSECOND
count: unlike `emitAppInfo` and unlike the `STD` computation one line
below the call site, the code does not divide by `time.Microsecond`
here. -/
def roundTripRequestBody (srtt rttvar : String) (elapsedNs : Nat) : String :=
  "\x7b\"AppInfo\":\x7b\"SRTT\":" ++ srtt ++ ",\"RTTVar\":" ++ rttvar ++
    ",\"ElapsedTime\":" ++ toString elapsedNs ++
    "\x7d,\"Test\":\"roundtrip\"\x7d"

/-- Output of the `fmt.Printf("%s\n\n", info.msg.String(...))` call at
main.go:89: body followed by a newline pair. -/
def roundTripRequestOut (srtt rttvar : String) (elapsedNs : Nat) : String :=
  roundTripRequestBody srtt rttvar elapsedNs ++ "\n\n"

/-- Output of the text-message pass-through in the download test
(main.go:127): `fmt.Printf("%s\n", string(data))` — a SINGLE trailing
newline, not a newline pair. -/
def passthroughOut (data : String) : String := data ++ "\n"

/-- C6 (code bug): a round-trip request received 150 μs (150000 ns)
after test start is printed with `ElapsedTime` equal to 150000 — the
raw nanosecond count of the `time.Duration` — although the elapsed
time in microseconds is 150. -/
theorem roundtrip_elapsed_nanoseconds_bug :
    roundTripRequestOut "0.000000" "0.000000" 150000 =
      "\x7b\"AppInfo\":\x7b\"SRTT\":0.000000,\"RTTVar\":0.000000," ++
        "\"ElapsedTime\":150000\x7d,\"Test\":\"roundtrip\"\x7d\n\n" ∧
      (150000 : Nat) / 1000 = 150 ∧ (150000 : Nat) ≠ 150 := by
  refine ⟨?_, by decide, by decide⟩
  decide

/-! ## Single-line-ness of the emitted records -/

/-- A string that contains no newline character, i.e. occupies a
single output line. -/
def singleLine (s : String) : Prop := ∀ c ∈ s.data, c ≠ '\n'

instance singleLineDecidable (s : String) : Decidable (singleLine s) :=
  inferInstanceAs (Decidable (∀ c ∈ s.data, c ≠ '\n'))

lemma singleLine_append {a b : String} (ha : singleLine a) (hb : singleLine b) :
    singleLine (a ++ b) := by
  intro c hc
  rw [String.data_append] at hc
  rcases List.mem_append.mp hc with h | h
  · exact ha c h
  · exact hb c h

lemma digitChar_ne_newline (n : Nat) : Nat.digitChar n ≠ '\n' := by
  rcases Nat.lt_or_ge n 16 with h | h
  · interval_cases n <;> decide
  · unfold Nat.digitChar
    rw [if_neg (by omega : ¬ n = 0), if_neg (by omega : ¬ n = 1),
      if_neg (by omega : ¬ n = 2), if_neg (by omega : ¬ n = 3),
      if_neg (by omega : ¬ n = 4), if_neg (by omega : ¬ n = 5),
      if_neg (by omega : ¬ n = 6), if_neg (by omega : ¬ n = 7),
      if_neg (by omega : ¬ n = 8), if_neg (by omega : ¬ n = 9),
      if_neg (by omega : ¬ n = 10), if_neg (by omega : ¬ n = 11),
      if_neg (by omega : ¬ n = 12), if_neg (by omega : ¬ n = 13),
      if_neg (by omega : ¬ n = 14), if_neg (by omega : ¬ n = 15)]
    decide

lemma toDigitsCore_ne_newline (fuel : Nat) :
    ∀ (n : Nat) (ds : List Char), (∀ c ∈ ds, c ≠ '\n') →
      ∀ c ∈ Nat.toDigitsCore 10 fuel n ds, c ≠ '\n' := by
  induction fuel with
  | zero => intro n ds h; simpa [Nat.toDigitsCore] using h
  | succ fuel ih =>
    intro n ds h c hc
    rw [Nat.toDigitsCore] at hc
    by_cases h10 : n / 10 = 0
    · rw [if_pos h10] at hc
      rcases List.mem_cons.mp hc with hc | hc
      · exact hc ▸ digitChar_ne_newline (n % 10)
      · exact h c hc
    · rw [if_neg h10] at hc
      refine ih (n / 10) (Nat.digitChar (n % 10) :: ds) ?_ c hc
      intro d hd
      rcases List.mem_cons.mp hd with hd | hd
      · exact hd ▸ digitChar_ne_newline (n % 10)
      · exact h d hd

/-- Go renders a non-negative `%d` argument as decimal digits, which
never include a newline. -/
lemma singleLine_toString_nat (n : Nat) : singleLine (toString n) := by
  intro c hc
  have hdata : (toString n).data = Nat.toDigits 10 n := rfl
  rw [hdata] at hc
  exact toDigitsCore_ne_newline (n + 1) n [] (by simp) c hc

/-- C8 (amended): each client-generated record — AppInfo via
`emitAppInfo`, Failure via `warnx`, and the round-trip pass-through —
is written as its JSON body (a single line, provided its string
arguments are newline-free) followed by a newline pair, i.e. a blank
line; the download text pass-through instead is the server payload
followed by a SINGLE newline. -/
theorem record_emission_format (total elapsedUs elapsedNs : Nat)
    (testname errmsg srtt rttvar data : String) :
    (singleLine testname → singleLine (emitAppInfoBody total elapsedUs testname)) ∧
      emitAppInfoOut total elapsedUs testname =
        emitAppInfoBody total elapsedUs testname ++ "\n\n" ∧
      (singleLine errmsg → singleLine testname →
        singleLine (warnxBody errmsg testname)) ∧
      warnxOut errmsg testname = warnxBody errmsg testname ++ "\n\n" ∧
      (singleLine srtt → singleLine rttvar →
        singleLine (roundTripRequestBody srtt rttvar elapsedNs)) ∧
      roundTripRequestOut srtt rttvar elapsedNs =
        roundTripRequestBody srtt rttvar elapsedNs ++ "\n\n" ∧
      passthroughOut data = data ++ "\n" := by
  refine ⟨?_, rfl, ?_, rfl, ?_, rfl, rfl⟩
  · intro ht
    unfold emitAppInfoBody
    exact singleLine_append (singleLine_append (singleLine_append
      (singleLine_append (singleLine_append (singleLine_append (by decide)
        (singleLine_toString_nat total)) (by decide))
        (singleLine_toString_nat elapsedUs)) (by decide)) ht) (by decide)
  · intro he ht
    unfold warnxBody
    exact singleLine_append (singleLine_append (singleLine_append
      (singleLine_append (by decide) he) (by decide)) ht) (by decide)
  · intro hs hr
    unfold roundTripRequestBody
    exact singleLine_append (singleLine_append (singleLine_append
      (singleLine_append (singleLine_append (singleLine_append (by decide) hs)
        (by decide)) hr) (by decide)) (singleLine_toString_nat elapsedNs))
      (by decide)

/-- Witness for `record_emission_format` at concrete arguments. -/
theorem record_emission_format_witness :
    singleLine (emitAppInfoBody 2048 250000 "download") ∧
      singleLine (warnxBody "EOF" "download") :=
  ⟨(record_emission_format 2048 250000 0 "download" "EOF" "0.0" "0.0" "x").1
      (by decide),
   (record_emission_format 2048 250000 0 "download" "EOF" "0.0" "0.0" "x").2.2.1
      (by decide) (by decide)⟩

/-- C8 counterexample: the download pass-through of the server text
payload (here the two-character JSON text holding an open and a close
brace) is emitted with a single trailing newline, so it is NOT of the
form body followed by the newline pair that every other record ends
with. -/
theorem passthrough_no_blank_line_cex :
    passthroughOut "\x7b\x7d" = "\x7b\x7d\n" ∧
      ¬ ∃ body : String, passthroughOut "\x7b\x7d" = body ++ "\n\n" := by
  constructor
  · decide
  · rintro ⟨body, hb⟩
    have h := congrArg String.data hb
    have hL : (passthroughOut "\x7b\x7d").data = ['\x7b', '\x7d', '\n'] := by
      decide
    have hR : (body ++ "\n\n").data = body.data ++ ['\n', '\n'] := by
      rw [String.data_append]
    rw [hL, hR] at h
    have hlen := congrArg List.length h
    rw [List.length_append] at hlen
    simp only [List.length_cons, List.length_nil] at hlen
    obtain ⟨c, hc⟩ := List.length_eq_one.mp (by omega : body.data.length = 1)
    rw [hc] at h
    simp only [List.cons_append, List.nil_append, List.cons.injEq] at h
    exact absurd h.2.1 (by decide)

/-! ## Download test (downloadTest, main.go:107-143)

One loop iteration receives one websocket message. A text message is
read fully, its length added to `total`, its payload printed with a
single newline, and the loop CONTINUES — skipping the ticker check. A
binary message is drained, its length added to `total`, and then the
non-blocking `select` on the ticker decides whether
`emitAppInfo(start, total, "download")` runs. The ticker is modelled
as a boolean oracle paired with each message: `true` means a tick was
pending in the ticker channel at that iteration. -/

inductive DlMsg where
  | text (data : String)
  | binary (size : Nat)
deriving DecidableEq

/-- Number of payload bytes a message contributes to `total`. -/
def dlMsgSize : DlMsg → Nat
  | .text d => d.length
  | .binary n => n

inductive DlEvent where
  | passthrough (data : String)
  | appInfo (numBytes : Nat) (test : String)
deriving DecidableEq

/-- One iteration of the download loop body: new total and the events
emitted during the iteration. -/
def dlStep (total : Nat) : DlMsg × Bool → Nat × List DlEvent
  | (.text d, _) => (total + d.length, [.passthrough d])
  | (.binary n, tick) =>
      (total + n, if tick then [.appInfo (total + n) "download"] else [])

/-- The download loop run over a finite synthetic stream of messages:
final total and the concatenated emitted events. -/
def downloadRun : List (DlMsg × Bool) → Nat → Nat × List DlEvent
  | [], total => (total, [])
  | m :: rest, total =>
      ((downloadRun rest (dlStep total m).1).1,
        (dlStep total m).2 ++ (downloadRun rest (dlStep total m).1).2)

/-- The `NumBytes` fields of the AppInfo records among the events, in
emission order. -/
def appInfoValues (es : List DlEvent) : List Nat :=
  es.filterMap fun e =>
    match e with
    | .appInfo v _ => some v
    | _ => none

/-- The `NumBytes` of the last emitted AppInfo record (0 when none was
emitted). -/
def lastReported (es : List DlEvent) : Nat := (appInfoValues es).getLastD 0

/-- Bytes accumulated after the last AppInfo report — the part of the
final total that no record reported. -/
def unreportedRemainder (finalTotal : Nat) (es : List DlEvent) : Nat :=
  finalTotal - lastReported es

/-- A synthetic all-binary download stream with sizes and ticker
oracle values. -/
def binStream (l : List (Nat × Bool)) : List (DlMsg × Bool) :=
  l.map fun p => (.binary p.1, p.2)

/-- Total bytes carried by a stream of messages. -/
def sizeSum (msgs : List (DlMsg × Bool)) : Nat :=
  (msgs.map fun m => dlMsgSize m.1).sum

lemma dlStep_total (total : Nat) (m : DlMsg × Bool) :
    (dlStep total m).1 = total + dlMsgSize m.1 := by
  rcases m with ⟨msg, tick⟩
  cases msg <;> rfl

lemma downloadRun_total (msgs : List (DlMsg × Bool)) (total : Nat) :
    (downloadRun msgs total).1 = total + sizeSum msgs := by
  induction msgs generalizing total with
  | nil => simp [downloadRun, sizeSum]
  | cons m rest ih =>
    show (downloadRun rest (dlStep total m).1).1 = _
    rw [ih, dlStep_total]
    simp [sizeSum]
    omega

lemma downloadRun_appInfo_le (msgs : List (DlMsg × Bool)) (total : Nat) :
    ∀ v ∈ appInfoValues (downloadRun msgs total).2, v ≤ (downloadRun msgs total).1 := by
  induction msgs generalizing total with
  | nil => intro v hv; simp [downloadRun, appInfoValues] at hv
  | cons m rest ih =>
    intro v hv
    have hsplit : (downloadRun (m :: rest) total).2 =
        (dlStep total m).2 ++ (downloadRun rest (dlStep total m).1).2 := rfl
    rw [hsplit, appInfoValues, List.filterMap_append] at hv
    have htot : (downloadRun (m :: rest) total).1 =
        (downloadRun rest (dlStep total m).1).1 := rfl
    rcases List.mem_append.mp hv with h | h
    · rcases m with ⟨msg, tick⟩
      cases msg with
      | text d => simp [dlStep] at h
      | binary n =>
        cases tick with
        | false => simp [dlStep] at h
        | true =>
          simp [dlStep] at h
          rw [htot, downloadRun_total, dlStep_total, h]
          simp [dlMsgSize]
    · exact htot ▸ ih (dlStep total m).1 v h

lemma sizeSum_binStream (l : List (Nat × Bool)) :
    sizeSum (binStream l) = (l.map Prod.fst).sum := by
  induction l with
  | nil => rfl
  | cons q l ih =>
    show q.1 + sizeSum (binStream l) = q.1 + (l.map Prod.fst).sum
    rw [ih]

lemma getLastD_le {l : List Nat} {M : Nat} (h : ∀ v ∈ l, v ≤ M) :
    l.getLastD 0 ≤ M := by
  induction l with
  | nil => simp
  | cons a l ih =>
    rw [List.getLastD_cons]
    cases l with
    | nil => exact h a (by simp)
    | cons b l =>
      rw [List.getLastD_cons]
      have := ih (fun v hv => h v (List.mem_cons_of_mem a hv))
      rwa [List.getLastD_cons] at this

/-- C3 (amended): for every synthetic all-binary download stream, the
final total equals the sum of the message sizes, and the `NumBytes` of
the LAST emitted AppInfo record plus the final unreported remainder
equals that sum (each record's `NumBytes` is the cumulative total at
emission time, so it is the last record, not the sum over records,
that takes part in the conservation identity). -/
theorem download_byte_conservation (l : List (Nat × Bool)) :
    (downloadRun (binStream l) 0).1 = (l.map Prod.fst).sum ∧
      lastReported (downloadRun (binStream l) 0).2 +
        unreportedRemainder (downloadRun (binStream l) 0).1
          (downloadRun (binStream l) 0).2 =
        (l.map Prod.fst).sum := by
  have htot : (downloadRun (binStream l) 0).1 = (l.map Prod.fst).sum := by
    rw [downloadRun_total, sizeSum_binStream, Nat.zero_add]
  refine ⟨htot, ?_⟩
  have hle : lastReported (downloadRun (binStream l) 0).2 ≤
      (downloadRun (binStream l) 0).1 :=
    getLastD_le (downloadRun_appInfo_le (binStream l) 0)
  rw [unreportedRemainder, ← htot]
  omega

/-- C3 counterexample: two binary messages of 100 bytes with a tick
due after each produce AppInfo records with cumulative `NumBytes` 100
and 200; the sum of the `NumBytes` fields plus the (zero) unreported
remainder is 300, but the stream carried only 200 bytes. -/
theorem download_sum_numbytes_cex :
    appInfoValues (downloadRun (binStream [(100, true), (100, true)]) 0).2 =
        [100, 200] ∧
      (appInfoValues (downloadRun (binStream [(100, true), (100, true)]) 0).2).sum +
        unreportedRemainder (downloadRun (binStream [(100, true), (100, true)]) 0).1
          (downloadRun (binStream [(100, true), (100, true)]) 0).2 = 300 ∧
      sizeSum (binStream [(100, true), (100, true)]) = 200 ∧
      (300 : Nat) ≠ 200 := by decide

/-- C4 counterexample: a text message received while a tick is already
due produces only the pass-through event — no AppInfo record — because
the loop `continue`s before the ticker `select`. -/
theorem download_text_skips_sampler_cex :
    (downloadRun [(DlMsg.text "x", true)] 0).2 = [DlEvent.passthrough "x"] ∧
      appInfoValues (downloadRun [(DlMsg.text "x", true)] 0).2 = [] := by decide

/-- C4 (amended): after a binary message the sampler is consulted — if
a tick is due an AppInfo record with Test="download" is emitted from
the running counter, otherwise nothing — while after a text message
the loop continues directly to the next read without consulting the
sampler, whatever the ticker state; and the loop is the iteration of
exactly this step function. -/
theorem download_sampler_consultation (total n : Nat) (d : String) (tick : Bool)
    (m : DlMsg × Bool) (rest : List (DlMsg × Bool)) :
    dlStep total (DlMsg.binary n, true) =
        (total + n, [DlEvent.appInfo (total + n) "download"]) ∧
      dlStep total (DlMsg.binary n, false) = (total + n, []) ∧
      dlStep total (DlMsg.text d, tick) =
        (total + d.length, [DlEvent.passthrough d]) ∧
      downloadRun (m :: rest) total =
        ((downloadRun rest (dlStep total m).1).1,
          (dlStep total m).2 ++ (downloadRun rest (dlStep total m).1).2) :=
  ⟨rfl, rfl, rfl, rfl⟩

lemma downloadRun_append (xs ys : List (DlMsg × Bool)) (total : Nat) :
    downloadRun (xs ++ ys) total =
      ((downloadRun ys (downloadRun xs total).1).1,
        (downloadRun xs total).2 ++ (downloadRun ys (downloadRun xs total).1).2) := by
  induction xs generalizing total with
  | nil => simp [downloadRun]
  | cons m xs ih =>
    show downloadRun (m :: (xs ++ ys)) total = _
    rw [downloadRun, ih (dlStep total m).1]
    simp [downloadRun, List.append_assoc]

/-- C9: text-message payload bytes are added to the running counter
(`dlMsgSize` of a text message is its payload length), so the AppInfo
record emitted at a later binary message reports `NumBytes` equal to
the running total over ALL earlier messages — text and binary alike —
plus the binary message just received. -/
theorem download_text_bytes_counted (p rest : List (DlMsg × Bool))
    (n total : Nat) (d : String) :
    dlMsgSize (DlMsg.text d) = d.length ∧
      (downloadRun p total).1 = total + sizeSum p ∧
      (downloadRun (p ++ (DlMsg.binary n, true) :: rest) total).2 =
        (downloadRun p total).2 ++
          DlEvent.appInfo ((downloadRun p total).1 + n) "download" ::
            (downloadRun rest ((downloadRun p total).1 + n)).2 := by
  refine ⟨rfl, downloadRun_total p total, ?_⟩
  rw [downloadRun_append]
  simp [downloadRun, dlStep]

/-! ## Server discovery (locate, main.go:228-254) and main (main.go:256-290)

`locate` returns immediately when any endpoint flag is set; otherwise
it performs one HTTP lookup, decodes the response, and fills the
download/upload flags from the first result's URL map (round-trip is
left untouched, per the TODO in the code). The network and decoding
steps are modelled by a `FetchOutcome` oracle; the returned `Bool`
records whether the discovery request was performed. -/

structure Flags where
  roundTrip : String
  download : String
  upload : String
deriving DecidableEq

def locateDownloadURL : String := "wss:///ndt/v7/download"

def locateUploadURL : String := "wss:///ndt/v7/upload"

structure LocateResult where
  urls : List (String × String)
deriving DecidableEq

inductive FetchOutcome where
  /-- `http.Get`, the body read, or `json.Unmarshal` failed with this
  error message. -/
  | fetchErr (msg : String)
  /-- The decoded `results` array of the locate response. -/
  | ok (results : List LocateResult)
deriving DecidableEq

/-- Go map indexing `r.URLs[key]`, yielding the zero value "" when the
key is absent. -/
def lookupURL (m : List (String × String)) (k : String) : String :=
  ((m.find? fun q => q.1 == k).map Prod.snd).getD ""

def locate (fl : Flags) (fetch : FetchOutcome) : Except String Flags × Bool :=
  if fl.roundTrip ≠ "" ∨ fl.download ≠ "" ∨ fl.upload ≠ "" then (Except.ok fl, false)
  else
    match fetch with
    | .fetchErr m => (Except.error m, true)
    | .ok [] => (Except.error "too few entries", true)
    | .ok (r :: _) =>
        (Except.ok { fl with
          download := lookupURL r.urls locateDownloadURL
          upload := lookupURL r.urls locateUploadURL }, true)

lemma locate_noop (fl : Flags) (fetch : FetchOutcome)
    (h : fl.roundTrip ≠ "" ∨ fl.download ≠ "" ∨ fl.upload ≠ "") :
    locate fl fetch = (Except.ok fl, false) := by
  unfold locate
  rw [if_pos h]

/-- Events observable from `main`: a `warnx` output line and the entry
into a sub-test loop. -/
inductive MainEvent where
  | failureRecord (msg test : String)
  | ranTest (test : String)
deriving DecidableEq

/-- One `if *flag != "" { dial; test }` block of `main`
(main.go:266-289): emitted events and, when `errx` was called, the
process exit code. A dial failure yields `errx(1, err, name)`; a test
loop failure yields only `warnx(err, name)`. -/
def runSubTest (flag name : String) (dialErr testErr : Option String) :
    List MainEvent × Option Nat :=
  if flag = "" then ([], none)
  else
    match dialErr with
    | some m => ([.failureRecord m name], some 1)
    | none =>
      match testErr with
      | some m => ([.ranTest name, .failureRecord m name], none)
      | none => ([.ranTest name], none)

structure NetOracle where
  rtDialErr : Option String
  rtTestErr : Option String
  dlDialErr : Option String
  dlTestErr : Option String
  ulDialErr : Option String
  ulTestErr : Option String
deriving DecidableEq

/-- `main` (main.go:256-290): locate, then the three sub-test blocks in
order (round-trip, download, upload), stopping with the recorded exit
code as soon as `errx`/`os.Exit` fires. -/
def runMain (fl : Flags) (fetch : FetchOutcome) (o : NetOracle) :
    List MainEvent × Option Nat :=
  match (locate fl fetch).1 with
  | .error m => ([.failureRecord m "locate"], some 1)
  | .ok fl2 =>
    match runSubTest fl2.roundTrip "roundtrip" o.rtDialErr o.rtTestErr with
    | (e1, some code) => (e1, some code)
    | (e1, none) =>
      match runSubTest fl2.download "download" o.dlDialErr o.dlTestErr with
      | (e2, some code) => (e1 ++ e2, some code)
      | (e2, none) =>
        match runSubTest fl2.upload "upload" o.ulDialErr o.ulTestErr with
        | (e3, x) => (e1 ++ e2 ++ e3, x)

lemma runSubTest_exit_none (flag name : String) (t : Option String) :
    (runSubTest flag name none t).2 = none := by
  unfold runSubTest
  split
  · rfl
  · cases t <;> rfl

/-- C10: when at least one endpoint flag is non-empty, `locate`
performs no discovery request, returns no error, and leaves all flags
unchanged; the request happens exactly when all three are empty. -/
theorem locate_skips_discovery (fl : Flags) (fetch : FetchOutcome) :
    ((fl.roundTrip ≠ "" ∨ fl.download ≠ "" ∨ fl.upload ≠ "") →
      locate fl fetch = (Except.ok fl, false)) ∧
      (fl.roundTrip = "" → fl.download = "" → fl.upload = "" →
        (locate fl fetch).2 = true) := by
  refine ⟨locate_noop fl fetch, ?_⟩
  intro h1 h2 h3
  unfold locate
  rw [if_neg (by simp [h1, h2, h3])]
  cases fetch with
  | fetchErr m => rfl
  | ok results => cases results <;> rfl

/-- Witness for `locate_skips_discovery`: with only the upload flag
set, locate is a no-op even when the lookup would fail; with no flag
set, the lookup is performed. -/
theorem locate_skips_discovery_witness :
    locate ⟨"", "", "wss://h/u"⟩ (FetchOutcome.fetchErr "dns") =
        (Except.ok ⟨"", "", "wss://h/u"⟩, false) ∧
      (locate ⟨"", "", ""⟩ (FetchOutcome.fetchErr "dns")).2 = true :=
  ⟨(locate_skips_discovery ⟨"", "", "wss://h/u"⟩ (FetchOutcome.fetchErr "dns")).1
      (Or.inr (Or.inr (by decide))),
   (locate_skips_discovery ⟨"", "", ""⟩ (FetchOutcome.fetchErr "dns")).2 rfl rfl rfl⟩

/-- C7: a dial failure for a requested sub-test emits a Failure record
tagged with that sub-test's name and exits the process with code 1
(nothing after it runs); an error inside a sub-test's loop emits only
the Failure record, after which execution continues to the next
requested sub-test without retrying — shown both for the generic
sub-test block and, end to end, for a round-trip failure followed by
the download and upload blocks. -/
theorem failure_handling (flag name m : String) (te : Option String)
    (fl : Flags) (fetch : FetchOutcome) (o : NetOracle) :
    (flag ≠ "" → runSubTest flag name (some m) te =
        ([MainEvent.failureRecord m name], some 1)) ∧
      (flag ≠ "" → runSubTest flag name none (some m) =
        ([MainEvent.ranTest name, MainEvent.failureRecord m name], none)) ∧
      (fl.roundTrip ≠ "" → o.rtDialErr = some m →
        runMain fl fetch o = ([MainEvent.failureRecord m "roundtrip"], some 1)) ∧
      (fl.roundTrip ≠ "" → o.rtDialErr = none → o.rtTestErr = some m →
        o.dlDialErr = none →
        runMain fl fetch o =
          (MainEvent.ranTest "roundtrip" :: MainEvent.failureRecord m "roundtrip" ::
            ((runSubTest fl.download "download" none o.dlTestErr).1 ++
              (runSubTest fl.upload "upload" o.ulDialErr o.ulTestErr).1),
            (runSubTest fl.upload "upload" o.ulDialErr o.ulTestErr).2)) := by
  refine ⟨?_, ?_, ?_, ?_⟩
  · intro h
    rw [runSubTest, if_neg h]
  · intro h
    rw [runSubTest, if_neg h]
  · intro hrt hdial
    have hloc := congrArg Prod.fst (locate_noop fl fetch (Or.inl hrt))
    have hr1 : runSubTest fl.roundTrip "roundtrip" o.rtDialErr o.rtTestErr =
        ([MainEvent.failureRecord m "roundtrip"], some 1) := by
      rw [hdial, runSubTest, if_neg hrt]
    simp only [runMain, hloc, hr1]
  · intro hrt hdial htest hdl
    have hloc := congrArg Prod.fst (locate_noop fl fetch (Or.inl hrt))
    have hr1 : runSubTest fl.roundTrip "roundtrip" o.rtDialErr o.rtTestErr =
        ([MainEvent.ranTest "roundtrip", MainEvent.failureRecord m "roundtrip"],
          none) := by
      rw [hdial, htest, runSubTest, if_neg hrt]
    rcases hq : runSubTest fl.download "download" none o.dlTestErr with ⟨e2, x2⟩
    have hx2 : x2 = none := by
      have := runSubTest_exit_none fl.download "download" o.dlTestErr
      rwa [hq] at this
    subst hx2
    rcases hr : runSubTest fl.upload "upload" o.ulDialErr o.ulTestErr with ⟨e3, x3⟩
    simp only [runMain, hloc, hr1, hdl, hq, hr]
    rfl

/-- Witness for `failure_handling` at concrete flags and oracle: a
download dial failure is fatal with exit code 1; a round-trip in-test
failure is followed by the download and upload sub-tests running. -/
theorem failure_handling_witness :
    runSubTest "wss://h/d" "download" (some "conn reset") none =
        ([MainEvent.failureRecord "conn reset" "download"], some 1) ∧
      runMain ⟨"wss://h/rt", "wss://h/d", "wss://h/u"⟩ (FetchOutcome.ok [])
          ⟨none, some "EOF", none, none, none, none⟩ =
        (MainEvent.ranTest "roundtrip" :: MainEvent.failureRecord "EOF" "roundtrip" ::
          ((runSubTest "wss://h/d" "download" none none).1 ++
            (runSubTest "wss://h/u" "upload" none none).1),
          (runSubTest "wss://h/u" "upload" none none).2) :=
  ⟨(failure_handling "wss://h/d" "download" "conn reset" none
      ⟨"", "", ""⟩ (FetchOutcome.ok []) ⟨none, none, none, none, none, none⟩).1
      (by decide),
   (failure_handling "x" "y" "EOF" none
      ⟨"wss://h/rt", "wss://h/d", "wss://h/u"⟩ (FetchOutcome.ok [])
      ⟨none, some "EOF", none, none, none, none⟩).2.2.2
      (by decide) rfl rfl rfl⟩

end Ndt7
